import Mathlib

/-!
Verification of the coSimple CANopen master protocol core (coSimple.c / coSimple.h).

The definitions below are a shallow embedding of the C source: machine
integers become `Nat` (with explicit masking / `% 2^32` where overflow
matters), the `co_msg_t` CAN frame becomes a structure holding the
identifier, length and the 8 data bytes as a list, and the blocking
poll loops become recursion over a finite list of receive events, each
event recording what the non-blocking `rx` callback reported and what
the millisecond clock read at that iteration's timeout check.
-/

namespace CoSimple

/-! ## Constants (from co_cob_id_t and the timeout defines) -/

def COB_ID_NMT : Nat := 0x000

def COB_ID_SYNC : Nat := 0x080

def COB_ID_EMCY : Nat := 0x080

def COB_ID_TIME : Nat := 0x100

def COB_ID_TPDO1 : Nat := 0x180

def COB_ID_RPDO1 : Nat := 0x200

def COB_ID_TSDO : Nat := 0x580

def COB_ID_RSDO : Nat := 0x600

def COB_ID_HRTB : Nat := 0x700

def CO_TIMEOUT_NMT : Nat := 3000

def CO_TIMEOUT_SDO : Nat := 1000

/-! ## Data model -/

/-- Embedding of `co_msg_t`: 16-bit identifier (11 significant bits),
payload length and the 8 payload bytes. -/
structure co_msg_t where
  cobId : Nat
  len : Nat
  data : List Nat
deriving DecidableEq, Repr

/-- Embedding of `getCOBIDType`: the identifier's 4-bit function-code field,
`msg->cobId & 0b11110000000`. -/
def getCOBIDType (msg : co_msg_t) : Nat := msg.cobId &&& 0b11110000000

/-- Embedding of `getNodeId`: the identifier's low 7 bits,
`msg->cobId & 0b00001111111`. -/
def getNodeId (msg : co_msg_t) : Nat := msg.cobId &&& 0b00001111111

/-! ## Timeout tracker -/

/-- Reinterpret a `uint32_t` value as the C `int32_t` it converts to
(two's-complement wraparound). -/
def toInt32 (x : Nat) : Int :=
  if x % 4294967296 < 2147483648 then ((x % 4294967296 : Nat) : Int)
  else ((x % 4294967296 : Nat) : Int) - 4294967296

/-- Embedding of `haveTimeout`: `delta = (int32_t)(now - start)` with the
subtraction performed on `uint32_t` (mod 2^32), `duration = abs(delta)`,
result `-1` when `duration >= timeout`, else `0`. -/
def haveTimeout (start now timeout : Nat) : Int :=
  let delta : Int := toInt32 ((now + (4294967296 - start % 4294967296)) % 4294967296)
  let duration : Int := if delta < 0 then -delta else delta
  if (timeout : Int) ≤ duration then -1 else 0

/-- Spec-side elapsed time, following the spec's words: treat both
timestamps as elements of the modular ring of width 2^32, form the signed
difference `now - start` interpreted via two's-complement wraparound,
and take its absolute value `|now - start|`. -/
def wrapElapsed (start now : Nat) : Int :=
  let d : Int := ((now : Int) - (start : Int)) % 4294967296
  let signed : Int := if d < 2147483648 then d else d - 4294967296
  if signed < 0 then -signed else signed

/-! ## Frame encoders (the pure frame constructions inside the tx functions) -/

/-- Frame built by `coNMTReq`: identifier `COB_ID_NMT`, 2 bytes
`[req, nodeId]` (remaining array entries zero-initialized). -/
def coNMTReq_msg (nodeId req : Nat) : co_msg_t :=
  { cobId := COB_ID_NMT, len := 2, data := [req, nodeId, 0, 0, 0, 0, 0, 0] }

/-- Frame and successor counter built by `coSYNC` with
`CO_SYNC_COUNTER_ENABLE` defined: 1-byte payload carrying the `uint8_t`
counter, which is then incremented (wrapping mod 256). -/
def coSYNC_counter (syncCounter : Nat) : co_msg_t × Nat :=
  ({ cobId := COB_ID_SYNC, len := 1,
     data := [syncCounter % 256, 0, 0, 0, 0, 0, 0, 0] },
   (syncCounter + 1) % 256)

/-- Embedding of `coSYNCResetCounter`: the counter value it stores. -/
def coSYNCResetCounter : Nat := 1

/-- Frame built by `coTPDO`: identifier `COB_ID_RPDO1 + nodeId`, the
zero-initialized payload overwritten by `memcpy(msg.data, data, len)`. -/
def coTPDO_msg (nodeId : Nat) (d : List Nat) (len : Nat) : co_msg_t :=
  { cobId := COB_ID_RPDO1 + nodeId, len := len,
    data := d.take len ++ List.replicate (8 - len) 0 }

/-- Request frame built by `coSDOWrite`: download-initiate command
specifier `0x23 | ((4 - len) << 2)`, index LSB/MSB, subindex, then the
value bytes LSB first with bytes past `len` forced to `0x00`. -/
def coSDOWrite_req (nodeId index subIndex value len : Nat) : co_msg_t :=
  let nField := (4 - len) <<< 2
  { cobId := COB_ID_RSDO + nodeId, len := 8,
    data := [0x23 ||| nField,
             index &&& 0xff, (index >>> 8) &&& 0xff,
             subIndex,
             value &&& 0xff,
             if 1 < len then (value >>> 8) &&& 0xff else 0x00,
             if 2 < len then (value >>> 16) &&& 0xff else 0x00,
             if 3 < len then (value >>> 24) &&& 0xff else 0x00] }

/-- Request frame built by `coSDORead`: upload-initiate command specifier
`0x40`, index LSB/MSB, subindex, no data (zero-initialized). -/
def coSDORead_req (nodeId index subIndex : Nat) : co_msg_t :=
  { cobId := COB_ID_RSDO + nodeId, len := 8,
    data := [0x40, index &&& 0xff, (index >>> 8) &&& 0xff, subIndex,
             0, 0, 0, 0] }

/-! ## Frame matchers -/

/-- The boot-up acceptance test inside `coNMTWaitBoot`'s loop:
heartbeat class, requested node, exactly one data byte, NMT state 0. -/
def bootMatch (nodeId : Nat) (m : co_msg_t) : Bool :=
  getCOBIDType m == COB_ID_HRTB && getNodeId m == nodeId &&
  m.len == 1 && m.data.getD 0 0 == 0

/-- The response acceptance test shared by `coSDOWrite` and `coSDORead`:
SDO response class, requested node, 8 data bytes, index LSB/MSB and
subindex equal to the request's. -/
def sdoRespMatch (nodeId index subIndex : Nat) (m : co_msg_t) : Bool :=
  getCOBIDType m == COB_ID_TSDO && getNodeId m == nodeId && m.len == 8 &&
  (index &&& 0xff) == m.data.getD 1 0 &&
  ((index >>> 8) &&& 0xff) == m.data.getD 2 0 &&
  subIndex == m.data.getD 3 0

/-- The full acceptance test of `coSDORead`'s loop: the shared response
test plus `0x03 == (data[0] & 0x03)` and `nField == (data[0] & 0x0c)`
with `nField = (4 - len) << 2`. -/
def sdoReadMatch (nodeId index subIndex len : Nat) (m : co_msg_t) : Bool :=
  sdoRespMatch nodeId index subIndex m &&
  (m.data.getD 0 0 &&& 0x03) == 0x03 &&
  ((4 - len) <<< 2) == (m.data.getD 0 0 &&& 0x0c)

/-- The value `coSDORead` stores through `*data` on success:
`data[4] | (1 < len ? data[5] << 8 : 0) | (2 < len ? data[6] << 16 : 0)
| (3 < len ? data[7] << 24 : 0)`. -/
def sdoReadValue (m : co_msg_t) (len : Nat) : Nat :=
  m.data.getD 4 0 |||
  (if 1 < len then m.data.getD 5 0 <<< 8 else 0) |||
  (if 2 < len then m.data.getD 6 0 <<< 16 else 0) |||
  (if 3 < len then m.data.getD 7 0 <<< 24 else 0)

/-- Spec-side little-endian reconstruction: the value carried by payload
bytes 4..7 truncated to the requested length,
`sum of data[4+i] * 256^i over i < len`. -/
def sdoReadValueSpec (m : co_msg_t) (len : Nat) : Nat :=
  (List.range len).foldr (fun i acc => m.data.getD (4 + i) 0 * 256 ^ i + acc) 0

/-! ## Blocking poll loops

Each loop consumes a finite trace of receive events. An event records
what the non-blocking `rx` callback reported in that iteration —
an error (return `-1`), no data (return `1`) or a received frame
(return `0`) — together with the value the millisecond clock would
deliver to that iteration's `haveTimeout` check. The loop state threads
the `co_msg_t msg` stack buffer explicitly, because the C code inspects
that buffer in every iteration in which `rx` did not return `-1`,
including "no data" iterations in which the buffer was not rewritten. -/

/-- One receive event of a poll-loop trace. -/
inductive rx_ev where
  | err : rx_ev
  | noData (now : Nat) : rx_ev
  | frame (m : co_msg_t) (now : Nat) : rx_ev
deriving DecidableEq, Repr

/-- Outcome of `coNMTWaitBoot`'s loop on a finite trace: a returned value,
or still polling (with the current buffer) when the trace ran out. -/
inductive nmt_out where
  | ret (v : Int) : nmt_out
  | pending (buf : co_msg_t) : nmt_out
deriving DecidableEq, Repr

/-- One iteration body of `coNMTWaitBoot`'s loop on the buffer contents
`m`: `some` result if the iteration returns, `none` if it loops. -/
def nmtStep (nodeId start : Nat) (m : co_msg_t) (now : Nat) : Option nmt_out :=
  if bootMatch nodeId m then some (nmt_out.ret 0)
  else if haveTimeout start now CO_TIMEOUT_NMT ≠ 0 then some (nmt_out.ret (-1))
  else none

/-- Embedding of `coNMTWaitBoot`'s poll loop. `buf` is the current
content of the `msg` stack variable (uninitialized at entry to the C
function); a `noData` event leaves it unchanged, a `frame` event
overwrites it, and the iteration body always inspects it. -/
def coNMTWaitBoot_loop (nodeId start : Nat) (buf : co_msg_t) :
    List rx_ev → nmt_out
  | [] => nmt_out.pending buf
  | rx_ev.err :: _ => nmt_out.ret (-1)
  | rx_ev.noData now :: rest =>
    match nmtStep nodeId start buf now with
    | some o => o
    | none => coNMTWaitBoot_loop nodeId start buf rest
  | rx_ev.frame m now :: rest =>
    match nmtStep nodeId start m now with
    | some o => o
    | none => coNMTWaitBoot_loop nodeId start m rest

/-- Outcome of the boot-wait loop as the spec describes it. -/
inductive spec_nmt_out where
  | success : spec_nmt_out
  | timedOut : spec_nmt_out
  | rxError : spec_nmt_out
  | pending : spec_nmt_out
deriving DecidableEq, Repr

/-- Modelled from the spec: the boot-wait poll loop as section 4.5 of the
spec describes it — on "no data" only the timeout is checked and the loop
continues; the matcher is run only on a received frame. This definition
exists to be compared against `coNMTWaitBoot_loop`, the embedding of the
source. -/
def specNMTWaitBoot_loop (nodeId start : Nat) : List rx_ev → spec_nmt_out
  | [] => spec_nmt_out.pending
  | rx_ev.err :: _ => spec_nmt_out.rxError
  | rx_ev.noData now :: rest =>
    if haveTimeout start now CO_TIMEOUT_NMT ≠ 0 then spec_nmt_out.timedOut
    else specNMTWaitBoot_loop nodeId start rest
  | rx_ev.frame m now :: rest =>
    if bootMatch nodeId m then spec_nmt_out.success
    else if haveTimeout start now CO_TIMEOUT_NMT ≠ 0 then spec_nmt_out.timedOut
    else specNMTWaitBoot_loop nodeId start rest

/-- Outcome of `coSDOWrite`'s loop: the `uint32_t` return value, or still
polling when the trace ran out. -/
inductive sdo_write_out where
  | done (ret : Nat) : sdo_write_out
  | pending (buf : co_msg_t) : sdo_write_out
deriving DecidableEq, Repr

/-- One iteration body of `coSDOWrite`'s loop on the buffer contents `m`:
on an accepted response the command-specifier high nibble decides the
verdict (`0x20`/`0x60` succeed, everything else returns
`(uint32_t)(-1) = 4294967295`); otherwise the timeout is checked. -/
def sdoWriteStep (nodeId index subIndex start : Nat) (m : co_msg_t)
    (now : Nat) : Option sdo_write_out :=
  if sdoRespMatch nodeId index subIndex m then
    if (m.data.getD 0 0 &&& 0xf0) == 0x20 || (m.data.getD 0 0 &&& 0xf0) == 0x60 then
      some (sdo_write_out.done 0)
    else
      some (sdo_write_out.done 4294967295)
  else if haveTimeout start now CO_TIMEOUT_SDO ≠ 0 then
    some (sdo_write_out.done 4294967295)
  else none

/-- Embedding of `coSDOWrite`'s poll loop; `buf` threads the reused `msg`
stack variable, which at entry holds the transmitted request frame. -/
def coSDOWrite_loop (nodeId index subIndex start : Nat) (buf : co_msg_t) :
    List rx_ev → sdo_write_out
  | [] => sdo_write_out.pending buf
  | rx_ev.err :: _ => sdo_write_out.done 4294967295
  | rx_ev.noData now :: rest =>
    match sdoWriteStep nodeId index subIndex start buf now with
    | some o => o
    | none => coSDOWrite_loop nodeId index subIndex start buf rest
  | rx_ev.frame m now :: rest =>
    match sdoWriteStep nodeId index subIndex start m now with
    | some o => o
    | none => coSDOWrite_loop nodeId index subIndex start m rest

/-- Outcome of `coSDORead`'s loop: the `uint32_t` return value together
with what was stored through the `*data` out-parameter (`none` = left
untouched), or still polling when the trace ran out. -/
inductive sdo_read_out where
  | done (ret : Nat) (val : Option Nat) : sdo_read_out
  | pending (buf : co_msg_t) : sdo_read_out
deriving DecidableEq, Repr

/-- One iteration body of `coSDORead`'s loop on the buffer contents `m`:
on an accepted response, high nibble `0x40`/`0x60` stores the
reconstructed value and returns `0`; anything else returns
`4294967295` without storing; otherwise the timeout is checked. -/
def sdoReadStep (nodeId index subIndex len start : Nat) (m : co_msg_t)
    (now : Nat) : Option sdo_read_out :=
  if sdoReadMatch nodeId index subIndex len m then
    if (m.data.getD 0 0 &&& 0xf0) == 0x40 || (m.data.getD 0 0 &&& 0xf0) == 0x60 then
      some (sdo_read_out.done 0 (some (sdoReadValue m len)))
    else
      some (sdo_read_out.done 4294967295 none)
  else if haveTimeout start now CO_TIMEOUT_SDO ≠ 0 then
    some (sdo_read_out.done 4294967295 none)
  else none

/-- Embedding of `coSDORead`'s poll loop; `buf` threads the reused `msg`
stack variable, which at entry holds the transmitted request frame. -/
def coSDORead_loop (nodeId index subIndex len start : Nat) (buf : co_msg_t) :
    List rx_ev → sdo_read_out
  | [] => sdo_read_out.pending buf
  | rx_ev.err :: _ => sdo_read_out.done 4294967295 none
  | rx_ev.noData now :: rest =>
    match sdoReadStep nodeId index subIndex len start buf now with
    | some o => o
    | none => coSDORead_loop nodeId index subIndex len start buf rest
  | rx_ev.frame m now :: rest =>
    match sdoReadStep nodeId index subIndex len start m now with
    | some o => o
    | none => coSDORead_loop nodeId index subIndex len start m rest

/-- Embedding of the whole `coSDORead` call: a failed transmit returns
the tx callback's `-1` as `uint32_t` without storing; otherwise the poll
loop runs with the `msg` buffer holding the just-sent request frame. -/
def coSDORead (nodeId index subIndex len : Nat) (txOk : Bool) (start : Nat)
    (evs : List rx_ev) : sdo_read_out :=
  if txOk then
    coSDORead_loop nodeId index subIndex len start
      (coSDORead_req nodeId index subIndex) evs
  else sdo_read_out.done 4294967295 none

/-! ## Cyclic receive (coRPDO) -/

/-- What the non-blocking `rx` callback reported to a single `coRPDO` call. -/
inductive rx_res where
  | err : rx_res
  | noData : rx_res
  | frame (m : co_msg_t) : rx_res
deriving DecidableEq, Repr

/-- Observable outcome of one `coRPDO` call: the returned `int`, the
emergency event delivered to the `emcy` callback (node, error code,
error register, manufacturer field) if any, and what was written to the
caller's `data`/`len` out-parameters (`none` = left untouched). -/
structure rpdo_out where
  ret : Int
  emcyEvt : Option (Nat × Nat × Nat × List Nat)
  dataOut : Option (List Nat × Nat)
deriving DecidableEq, Repr

/-- Embedding of `coRPDO`: forward `rx` errors and "no data" unchanged;
dispatch an emergency-class frame to the `emcy` callback and report `1`;
copy out a process-data frame from the awaited node and report `0`;
report `1` for anything else. -/
def coRPDO (nodeId : Nat) (r : rx_res) : rpdo_out :=
  match r with
  | rx_res.err => { ret := -1, emcyEvt := none, dataOut := none }
  | rx_res.noData => { ret := 1, emcyEvt := none, dataOut := none }
  | rx_res.frame m =>
    if getCOBIDType m == COB_ID_EMCY then
      { ret := 1,
        emcyEvt := some (getNodeId m,
          m.data.getD 0 0 ||| (m.data.getD 1 0 <<< 8),
          m.data.getD 2 0, m.data.drop 3),
        dataOut := none }
    else if getCOBIDType m == COB_ID_TPDO1 && getNodeId m == nodeId then
      { ret := 0, emcyEvt := none, dataOut := some (m.data.take m.len, m.len) }
    else
      { ret := 1, emcyEvt := none, dataOut := none }

/-! ## Auxiliary definitions for the loop theorems -/

/-- A poll-loop event that `coNMTWaitBoot`'s loop skips over: a received
frame that does not match the boot matcher, observed before the timeout
bound has elapsed. -/
def nmtSkipEv (nodeId start : Nat) : rx_ev → Prop
  | rx_ev.frame m now =>
    bootMatch nodeId m = false ∧ haveTimeout start now CO_TIMEOUT_NMT = 0
  | _ => False

/-- A boot-up frame of node 5: heartbeat identifier 0x705, one data byte 0. -/
def bootMsg5 : co_msg_t := ⟨0x705, 1, [0, 0, 0, 0, 0, 0, 0, 0]⟩

/-- A successful expedited-upload response of node 5 for index 0x1018
subindex 1, carrying value bytes AA BB CC DD. -/
def rdRespOk : co_msg_t := ⟨0x585, 8, [0x43, 0x18, 0x10, 0x01, 0xAA, 0xBB, 0xCC, 0xDD]⟩

/-- A response of node 5 for index 0x1018 subindex 1 whose command
specifier is the SDO abort code 0x80. -/
def rdRespCs80 : co_msg_t := ⟨0x585, 8, [0x80, 0x18, 0x10, 0x01, 0, 0, 0, 0]⟩

/-- A successful download-initiate response of node 5 for index 0x1018
subindex 1 (command specifier 0x60). -/
def wrRespOk : co_msg_t := ⟨0x585, 8, [0x60, 0x18, 0x10, 0x01, 0, 0, 0, 0]⟩

/-- An emergency frame of node 7: identifier 0x087, error code 0x2010,
error register 5, manufacturer field [1, 2, 3, 4, 5]. -/
def emcyMsg7 : co_msg_t := ⟨0x087, 8, [0x10, 0x20, 0x05, 1, 2, 3, 4, 5]⟩

/-! ## Helper lemmas -/

lemma and_127_eq (x : Nat) : x &&& 127 = x % 128 := by
  have h := Nat.and_pow_two_sub_one_eq_mod x 7
  norm_num at h
  exact h

lemma and_255_eq (x : Nat) : x &&& 255 = x % 256 := by
  have h := Nat.and_pow_two_sub_one_eq_mod x 8
  norm_num at h
  exact h

lemma and_1920_eq (x : Nat) (h : x < 2048) : x &&& 1920 = x / 128 * 128 := by
  have hr : x / 128 * 128 = (x >>> 7) <<< 7 := by
    rw [Nat.shiftRight_eq_div_pow, Nat.shiftLeft_eq]
  rw [hr]
  apply Nat.eq_of_testBit_eq
  intro i
  rw [Nat.testBit_and, Nat.testBit_shiftLeft, Nat.testBit_shiftRight]
  by_cases h7 : 7 ≤ i
  · by_cases h11 : i < 11
    · have h1920 : Nat.testBit 1920 i = true := by
        interval_cases i <;> decide
      have hi : 7 + (i - 7) = i := by omega
      simp [h7, h1920, hi]
    · have hpow : (2048 : Nat) ≤ 2 ^ i := by
        calc (2048 : Nat) = 2 ^ 11 := by norm_num
        _ ≤ 2 ^ i := Nat.pow_le_pow_right (by norm_num) (by omega)
      have h1920 : Nat.testBit 1920 i = false :=
        Nat.testBit_lt_two_pow (by omega)
      have hx : Nat.testBit x i = false :=
        Nat.testBit_lt_two_pow (by omega)
      have hi : 7 + (i - 7) = i := by omega
      simp [h7, h1920, hx, hi]
  · have h1920 : Nat.testBit 1920 i = false := by
      interval_cases i <;> decide
    simp [h7, h1920]

lemma lor_shift_add (a b k : Nat) (h : a < 2 ^ k) : a ||| b <<< k = a + b * 2 ^ k := by
  rw [Nat.shiftLeft_eq, Nat.lor_comm, Nat.mul_comm b (2 ^ k),
    ← Nat.mul_add_lt_is_or h b]
  exact Nat.add_comm _ _

lemma natDelta_cast (start now : Nat) :
    (((now + (4294967296 - start % 4294967296)) % 4294967296 : Nat) : Int) =
      ((now : Int) - (start : Int)) % 4294967296 := by
  have h1 : start % 4294967296 ≤ 4294967296 :=
    Nat.le_of_lt (Nat.mod_lt _ (by norm_num))
  have h2 : (((now + (4294967296 - start % 4294967296)) % 4294967296 : Nat) : Int) =
      ((now : Int) + ((4294967296 : Int) - ((start % 4294967296 : Nat) : Int))) % 4294967296 := by
    push_cast [Nat.cast_sub h1]
    ring_nf
  rw [h2]
  have h3 : ((start % 4294967296 : Nat) : Int) = (start : Int) % 4294967296 := by
    push_cast
    ring
  rw [h3]
  omega

lemma wrapElapsed_eq_duration (start now : Nat) :
    wrapElapsed start now =
      (if toInt32 ((now + (4294967296 - start % 4294967296)) % 4294967296) < 0
       then -toInt32 ((now + (4294967296 - start % 4294967296)) % 4294967296)
       else toInt32 ((now + (4294967296 - start % 4294967296)) % 4294967296)) := by
  unfold wrapElapsed toInt32
  simp only [Nat.mod_mod]
  have key := natDelta_cast start now
  rw [← key]
  split_ifs <;> omega

lemma haveTimeout_iff (start now bound : Nat) :
    (haveTimeout start now bound = -1 ↔ (bound : Int) ≤ wrapElapsed start now) ∧
    (haveTimeout start now bound = 0 ↔ wrapElapsed start now < bound) := by
  simp only [haveTimeout]
  rw [wrapElapsed_eq_duration]
  split_ifs <;> norm_num <;> omega

lemma nmt_loop_frame_head (n start : Nat) (b1 b2 m : co_msg_t) (now : Nat)
    (tr : List rx_ev) :
    coNMTWaitBoot_loop n start b1 (rx_ev.frame m now :: tr) =
    coNMTWaitBoot_loop n start b2 (rx_ev.frame m now :: tr) := by
  simp [coNMTWaitBoot_loop]

lemma nmt_loop_skip (n start : Nat) (pre : List rx_ev) :
    ∀ (buf m : co_msg_t) (now : Nat) (tr : List rx_ev),
    (∀ ev ∈ pre, nmtSkipEv n start ev) →
    coNMTWaitBoot_loop n start buf (pre ++ rx_ev.frame m now :: tr) =
    coNMTWaitBoot_loop n start m (rx_ev.frame m now :: tr) := by
  induction pre with
  | nil => exact fun buf m now tr _ => nmt_loop_frame_head n start buf m m now tr
  | cons ev rest ih =>
    intro buf m now tr h
    have hev := h ev (List.mem_cons_self ev rest)
    cases ev with
    | err => exact hev.elim
    | noData now2 => exact hev.elim
    | frame m2 now2 =>
      obtain ⟨hm, ht⟩ := hev
      have hstep : nmtStep n start m2 now2 = none := by
        simp [nmtStep, hm, ht]
      have hrest : ∀ ev ∈ rest, nmtSkipEv n start ev :=
        fun e he => h e (List.mem_cons_of_mem _ he)
      calc coNMTWaitBoot_loop n start buf
            ((rx_ev.frame m2 now2 :: rest) ++ rx_ev.frame m now :: tr)
          = coNMTWaitBoot_loop n start m2 (rest ++ rx_ev.frame m now :: tr) := by
            simp [coNMTWaitBoot_loop, hstep]
        _ = coNMTWaitBoot_loop n start m (rx_ev.frame m now :: tr) :=
            ih m2 m now tr hrest

lemma getD_lt_256 (l : List Nat) (i : Nat) (h : ∀ b ∈ l, b < 256) :
    l.getD i 0 < 256 := by
  by_cases hi : i < l.length
  · rw [List.getD_eq_getElem l 0 hi]
    exact h _ (List.getElem_mem hi)
  · rw [List.getD_eq_default l 0 (by omega)]
    norm_num

lemma lor_chain (a b c d : Nat) (ha : a < 256) (hb : b < 256) (hc : c < 256) :
    a ||| b <<< 8 ||| c <<< 16 ||| d <<< 24 =
      a + b * 256 + c * 65536 + d * 16777216 := by
  have h28 : (2 : Nat) ^ 8 = 256 := by norm_num
  have h216 : (2 : Nat) ^ 16 = 65536 := by norm_num
  have h224 : (2 : Nat) ^ 24 = 16777216 := by norm_num
  have h1 : a ||| b <<< 8 = a + b * 256 := by
    rw [lor_shift_add a b 8 (by omega), h28]
  have h2 : a + b * 256 ||| c <<< 16 = a + b * 256 + c * 65536 := by
    rw [lor_shift_add _ c 16 (by rw [h216]; omega), h216]
  have h3 : a + b * 256 + c * 65536 ||| d <<< 24 =
      a + b * 256 + c * 65536 + d * 16777216 := by
    rw [lor_shift_add _ d 24 (by rw [h224]; omega), h224]
  rw [h1, h2, h3]

lemma sdoReadStep_cases (n i s l st : Nat) (m : co_msg_t) (now : Nat) :
    sdoReadStep n i s l st m now = none ∨
    (∃ x, sdoReadStep n i s l st m now = some (sdo_read_out.done 0 (some x))) ∨
    sdoReadStep n i s l st m now = some (sdo_read_out.done 4294967295 none) := by
  unfold sdoReadStep
  split_ifs <;> simp

lemma sdoReadLoop_inv (n i s l st : Nat) (evs : List rx_ev) :
    ∀ (buf : co_msg_t) (r : Nat) (v : Option Nat),
    coSDORead_loop n i s l st buf evs = sdo_read_out.done r v →
    (r = 0 ∧ ∃ x, v = some x) ∨ (r = 4294967295 ∧ v = none) := by
  induction evs with
  | nil =>
    intro buf r v h
    simp [coSDORead_loop] at h
  | cons ev rest ih =>
    intro buf r v h
    cases ev with
    | err =>
      simp only [coSDORead_loop, sdo_read_out.done.injEq] at h
      right
      exact ⟨h.1.symm, h.2.symm⟩
    | noData now =>
      simp only [coSDORead_loop] at h
      rcases sdoReadStep_cases n i s l st buf now with hc | ⟨x, hc⟩ | hc <;>
        rw [hc] at h
      · exact ih buf r v h
      · simp only [sdo_read_out.done.injEq] at h
        exact Or.inl ⟨h.1.symm, x, h.2.symm⟩
      · simp only [sdo_read_out.done.injEq] at h
        exact Or.inr ⟨h.1.symm, h.2.symm⟩
    | frame m now =>
      simp only [coSDORead_loop] at h
      rcases sdoReadStep_cases n i s l st m now with hc | ⟨x, hc⟩ | hc <;>
        rw [hc] at h
      · exact ih m r v h
      · simp only [sdo_read_out.done.injEq] at h
        exact Or.inl ⟨h.1.symm, x, h.2.symm⟩
      · simp only [sdo_read_out.done.injEq] at h
        exact Or.inr ⟨h.1.symm, h.2.symm⟩

/-! ## Claims -/

/-- C1: for all 32-bit timestamps and every bound below 2^31,
`haveTimeout` reports timeout exactly when the wraparound-safe elapsed
time `|now - start|` (two's-complement interpretation of the modular
difference) reaches the bound; in particular, with the counter wrapping
from 0xFFFFFFF0 to 0x00000010 the elapsed time is 32 and a 100 ms bound
has not expired, while at 0x00000100 it has. -/
theorem claim_C1 :
    (∀ start now bound : Nat, bound < 2147483648 →
      (haveTimeout start now bound = -1 ↔ (bound : Int) ≤ wrapElapsed start now)) ∧
    wrapElapsed 0xFFFFFFF0 0x10 = 32 ∧
    haveTimeout 0xFFFFFFF0 0x10 100 = 0 ∧
    haveTimeout 0xFFFFFFF0 0x100 100 = -1 := by
  refine ⟨fun start now bound _ => (haveTimeout_iff start now bound).1,
    by decide, by decide, by decide⟩

/-- C1 witness: the characterization applied at the wraparound inputs of
the claim. -/
theorem claim_C1_witness :
    haveTimeout 4294967280 256 100 = -1 ↔ (100 : Int) ≤ wrapElapsed 4294967280 256 :=
  claim_C1.1 4294967280 256 100 (by norm_num)

/-- C2: the claim says that on a "no data" receive (return value 1) no
frame matching is attempted and only the timeout is checked. The code
contradicts this: its loop body runs the matcher whenever `rx` did not
return `-1`, inspecting the (unwritten, at first iteration
uninitialized) `msg` buffer. Concretely, when the stale buffer happens
to contain a boot-up frame of node 5 and `rx` reports "no data",
`coNMTWaitBoot` returns success without any frame having been received
in that iteration, while the loop as the spec describes it keeps
polling. -/
theorem claim_C2_bug :
    coNMTWaitBoot_loop 5 0 bootMsg5 [rx_ev.noData 0] = nmt_out.ret 0 ∧
    specNMTWaitBoot_loop 5 0 [rx_ev.noData 0] = spec_nmt_out.pending := by
  decide

/-- C3 counterexample: a response whose command specifier is exactly 0x80
does not yield abort as the claim states. It fails the matcher's
low-2-bits check, so `coSDORead` ignores it and keeps polling — and can
even return success from a later frame of the same poll. -/
theorem claim_C3_cex :
    rdRespCs80.data.getD 0 0 = 0x80 ∧
    sdoReadMatch 5 0x1018 1 4 rdRespCs80 = false ∧
    coSDORead_loop 5 0x1018 1 4 0 (coSDORead_req 5 0x1018 1)
      [rx_ev.frame rdRespCs80 0] = sdo_read_out.pending rdRespCs80 ∧
    coSDORead_loop 5 0x1018 1 4 0 (coSDORead_req 5 0x1018 1)
      [rx_ev.frame rdRespCs80 0, rx_ev.frame rdRespOk 1] =
      sdo_read_out.done 0 (some 0xDDCCBBAA) := by
  decide

/-- C3 (amended): `coSDORead` accepts a response frame exactly when it is
configuration-response class addressed to the node with length 8,
matching index and subindex bytes, command-specifier low 2 bits 0b11 and
bits 2-3 equal to `(4 - len) << 2`; on accepted frames, high nibble 0x4
or 0x6 returns success with the little-endian value truncated to `len`
bytes and any other high nibble returns abort; the example frame
[0x43, 0x18, 0x10, 0x01, 0xAA, 0xBB, 0xCC, 0xDD] for index 0x1018
subindex 1 length 4 yields success with value 0xDDCCBBAA. (A response
with command specifier 0x80 is not accepted and is ignored, see the
counterexample.) -/
theorem claim_C3 :
    (∀ nodeId index subIndex len : Nat, ∀ m : co_msg_t,
      nodeId ≤ 127 → m.cobId < 2048 →
      (sdoReadMatch nodeId index subIndex len m = true ↔
        (m.cobId = 0x580 + nodeId ∧ m.len = 8 ∧
         m.data.getD 1 0 = index &&& 0xff ∧
         m.data.getD 2 0 = (index >>> 8) &&& 0xff ∧
         m.data.getD 3 0 = subIndex ∧
         m.data.getD 0 0 &&& 0x03 = 0x03 ∧
         m.data.getD 0 0 &&& 0x0c = (4 - len) <<< 2))) ∧
    (∀ nodeId index subIndex len start now : Nat, ∀ m : co_msg_t,
      sdoReadMatch nodeId index subIndex len m = true →
      (((m.data.getD 0 0 &&& 0xf0 = 0x40 ∨ m.data.getD 0 0 &&& 0xf0 = 0x60) →
         sdoReadStep nodeId index subIndex len start m now =
           some (sdo_read_out.done 0 (some (sdoReadValue m len)))) ∧
       (¬(m.data.getD 0 0 &&& 0xf0 = 0x40 ∨ m.data.getD 0 0 &&& 0xf0 = 0x60) →
         sdoReadStep nodeId index subIndex len start m now =
           some (sdo_read_out.done 4294967295 none)))) ∧
    (∀ len : Nat, ∀ m : co_msg_t, 1 ≤ len → len ≤ 4 → (∀ b ∈ m.data, b < 256) →
      sdoReadValue m len = sdoReadValueSpec m len) ∧
    coSDORead_loop 5 0x1018 1 4 0 (coSDORead_req 5 0x1018 1)
      [rx_ev.frame rdRespOk 0] = sdo_read_out.done 0 (some 0xDDCCBBAA) := by
  refine ⟨?_, ?_, ?_, by decide⟩
  · intro n idx sub len m h1 h2
    simp only [sdoReadMatch, sdoRespMatch, getCOBIDType, getNodeId,
      Bool.and_eq_true, beq_iff_eq, COB_ID_TSDO]
    rw [and_1920_eq m.cobId h2, and_127_eq]
    constructor
    · rintro ⟨⟨⟨⟨⟨⟨⟨hcls, hnode⟩, hlen⟩, hd1⟩, hd2⟩, hd3⟩, hlow⟩, hn⟩
      exact ⟨by omega, hlen, hd1.symm, hd2.symm, hd3.symm, hlow, hn.symm⟩
    · rintro ⟨hc, hlen, hd1, hd2, hd3, hlow, hn⟩
      exact ⟨⟨⟨⟨⟨⟨⟨by omega, by omega⟩, hlen⟩, hd1.symm⟩, hd2.symm⟩, hd3.symm⟩,
        hlow⟩, hn.symm⟩
  · intro n idx sub len st now m h
    set b : Nat := m.data.getD 0 0 with hbdef
    simp only [sdoReadStep, h, if_true]
    constructor
    · intro h2
      have hb : ((b &&& 240) == 64 || (b &&& 240) == 96) = true := by
        rcases h2 with h2 | h2 <;> simp [h2]
      simp only [hb, if_true]
    · intro h2
      push_neg at h2
      have hb : ((b &&& 240) == 64 || (b &&& 240) == 96) = false := by
        simp [h2.1, h2.2]
      simp only [hb, Bool.false_eq_true, if_false]
  · intro len m h1 h2 hbytes
    have hb4 := getD_lt_256 m.data 4 hbytes
    have hb5 := getD_lt_256 m.data 5 hbytes
    have hb6 := getD_lt_256 m.data 6 hbytes
    interval_cases len
    · have hv : sdoReadValue m 1 = m.data.getD 4 0 ||| 0 ||| 0 ||| 0 := rfl
      have hs : sdoReadValueSpec m 1 = m.data.getD 4 0 * 256 ^ 0 + 0 := rfl
      rw [hv, hs, pow_zero, mul_one, add_zero, Nat.or_zero, Nat.or_zero, Nat.or_zero]
    · have hv : sdoReadValue m 2 =
          m.data.getD 4 0 ||| m.data.getD 5 0 <<< 8 ||| 0 ||| 0 := rfl
      have hs : sdoReadValueSpec m 2 =
          m.data.getD 4 0 * 256 ^ 0 + (m.data.getD 5 0 * 256 ^ 1 + 0) := rfl
      rw [hv, hs, Nat.or_zero, Nat.or_zero, lor_shift_add _ _ 8 (by omega)]
      norm_num
    · have hv : sdoReadValue m 3 =
          m.data.getD 4 0 ||| m.data.getD 5 0 <<< 8 ||| m.data.getD 6 0 <<< 16 ||| 0 := rfl
      have hs : sdoReadValueSpec m 3 =
          m.data.getD 4 0 * 256 ^ 0 +
            (m.data.getD 5 0 * 256 ^ 1 + (m.data.getD 6 0 * 256 ^ 2 + 0)) := rfl
      rw [hv, hs, Nat.or_zero, lor_shift_add _ _ 8 (by omega),
        lor_shift_add _ _ 16 (by omega)]
      norm_num
      omega
    · have hv : sdoReadValue m 4 =
          m.data.getD 4 0 ||| m.data.getD 5 0 <<< 8 ||| m.data.getD 6 0 <<< 16 |||
            m.data.getD 7 0 <<< 24 := rfl
      have hs : sdoReadValueSpec m 4 =
          m.data.getD 4 0 * 256 ^ 0 +
            (m.data.getD 5 0 * 256 ^ 1 +
              (m.data.getD 6 0 * 256 ^ 2 + (m.data.getD 7 0 * 256 ^ 3 + 0))) := rfl
      rw [hv, hs, lor_chain _ _ _ _ hb4 hb5 hb6]
      ring_nf

/-- C3 witness: the acceptance characterization applied to the successful
example response frame. -/
theorem claim_C3_witness :
    sdoReadMatch 5 0x1018 1 4 rdRespOk = true ↔
      (rdRespOk.cobId = 0x580 + 5 ∧ rdRespOk.len = 8 ∧
       rdRespOk.data.getD 1 0 = 0x1018 &&& 0xff ∧
       rdRespOk.data.getD 2 0 = (0x1018 >>> 8) &&& 0xff ∧
       rdRespOk.data.getD 3 0 = 1 ∧
       rdRespOk.data.getD 0 0 &&& 0x03 = 0x03 ∧
       rdRespOk.data.getD 0 0 &&& 0x0c = (4 - 4) <<< 2) :=
  claim_C3.1 5 0x1018 1 4 rdRespOk (by norm_num) (by norm_num [rdRespOk])

/-- C4: the configuration-write request frame has identifier 0x600+node,
8 bytes, command specifier `0x23 | ((4 - len) << 2)`, index low/high
bytes, subindex, and the value little-endian zero-padded past `len`. -/
theorem claim_C4 : ∀ nodeId index subIndex value len : Nat,
    1 ≤ nodeId → nodeId ≤ 127 → 1 ≤ len → len ≤ 4 → index < 65536 → subIndex < 256 →
    (coSDOWrite_req nodeId index subIndex value len).cobId = 0x600 + nodeId ∧
    (coSDOWrite_req nodeId index subIndex value len).len = 8 ∧
    (coSDOWrite_req nodeId index subIndex value len).data =
      [0x23 ||| ((4 - len) <<< 2),
       index % 256, index / 256, subIndex,
       value % 256,
       if 1 < len then value / 256 % 256 else 0,
       if 2 < len then value / 65536 % 256 else 0,
       if 3 < len then value / 16777216 % 256 else 0] := by
  intro n idx sub v len h1 h2 h3 h4 h5 h6
  refine ⟨rfl, rfl, ?_⟩
  have e2 : (idx >>> 8) &&& 255 = idx / 256 := by
    rw [Nat.shiftRight_eq_div_pow, and_255_eq]
    norm_num
    omega
  have e4 : (v >>> 8) &&& 255 = v / 256 % 256 := by
    rw [Nat.shiftRight_eq_div_pow, and_255_eq]
  have e5 : (v >>> 16) &&& 255 = v / 65536 % 256 := by
    rw [Nat.shiftRight_eq_div_pow, and_255_eq]
  have e6 : (v >>> 24) &&& 255 = v / 16777216 % 256 := by
    rw [Nat.shiftRight_eq_div_pow, and_255_eq]
  simp [coSDOWrite_req, and_255_eq, e2, e4, e5, e6]

/-- C4 witness: the layout theorem applied at node 5, index 0x1018,
subindex 1, value 0xDDCCBBAA, length 4. -/
theorem claim_C4_witness :
    (coSDOWrite_req 5 0x1018 1 0xDDCCBBAA 4).cobId = 0x600 + 5 ∧
    (coSDOWrite_req 5 0x1018 1 0xDDCCBBAA 4).len = 8 ∧
    (coSDOWrite_req 5 0x1018 1 0xDDCCBBAA 4).data =
      [0x23 ||| ((4 - 4) <<< 2),
       0x1018 % 256, 0x1018 / 256, 1,
       0xDDCCBBAA % 256,
       if 1 < 4 then 0xDDCCBBAA / 256 % 256 else 0,
       if 2 < 4 then 0xDDCCBBAA / 65536 % 256 else 0,
       if 3 < 4 then 0xDDCCBBAA / 16777216 % 256 else 0] :=
  claim_C4 5 0x1018 1 0xDDCCBBAA 4 (by norm_num) (by norm_num) (by norm_num)
    (by norm_num) (by norm_num) (by norm_num)

/-- C5: on a frame accepted by the shared configuration-response matcher,
`coSDOWrite` returns success exactly when the command-specifier high
nibble is 0x2 or 0x6, and returns the abort value for 0x8 or any other
high nibble. -/
theorem claim_C5 : ∀ nodeId index subIndex start now : Nat, ∀ m : co_msg_t,
    sdoRespMatch nodeId index subIndex m = true →
    ((sdoWriteStep nodeId index subIndex start m now = some (sdo_write_out.done 0) ↔
       (m.data.getD 0 0 &&& 0xf0 = 0x20 ∨ m.data.getD 0 0 &&& 0xf0 = 0x60)) ∧
     (sdoWriteStep nodeId index subIndex start m now = some (sdo_write_out.done 4294967295) ↔
       ¬(m.data.getD 0 0 &&& 0xf0 = 0x20 ∨ m.data.getD 0 0 &&& 0xf0 = 0x60))) := by
  intro n idx sub st now m h
  set b : Nat := m.data.getD 0 0 with hbdef
  simp only [sdoWriteStep, h, if_true]
  by_cases h2 : (b &&& 240 = 32 ∨ b &&& 240 = 96)
  · have hb : ((b &&& 240) == 32 || (b &&& 240) == 96) = true := by
      rcases h2 with h2 | h2 <;> simp [h2]
    simp only [hb, if_true]
    refine ⟨by simp [h2], by simp [h2]⟩
  · have hb : ((b &&& 240) == 32 || (b &&& 240) == 96) = false := by
      push_neg at h2
      simp [h2.1, h2.2]
    simp only [hb, Bool.false_eq_true, if_false]
    refine ⟨by simp [h2], by simp [h2]⟩

/-- C5 witness: the verdict theorem applied to a matched response with
command specifier 0x60. -/
theorem claim_C5_witness :
    ((sdoWriteStep 5 0x1018 1 0 wrRespOk 0 = some (sdo_write_out.done 0) ↔
       (wrRespOk.data.getD 0 0 &&& 0xf0 = 0x20 ∨ wrRespOk.data.getD 0 0 &&& 0xf0 = 0x60)) ∧
     (sdoWriteStep 5 0x1018 1 0 wrRespOk 0 = some (sdo_write_out.done 4294967295) ↔
       ¬(wrRespOk.data.getD 0 0 &&& 0xf0 = 0x20 ∨ wrRespOk.data.getD 0 0 &&& 0xf0 = 0x60))) :=
  claim_C5 5 0x1018 1 0 0 wrRespOk (by decide)

/-- C6: the boot matcher accepts exactly heartbeat-class frames with
identifier 0x700+node, payload length 1 and payload byte 0; a
non-matching frame before the bound neither terminates nor disturbs the
loop; a stream of such unrelated frames followed by a boot-up frame
yields success 0; only unrelated frames until the bound elapses yields
the timeout result -1. -/
theorem claim_C6 :
    (∀ nodeId : Nat, ∀ m : co_msg_t, nodeId ≤ 127 → m.cobId < 2048 →
      (bootMatch nodeId m = true ↔
        (m.cobId = 0x700 + nodeId ∧ m.len = 1 ∧ m.data.getD 0 0 = 0))) ∧
    (∀ nodeId start now : Nat, ∀ m : co_msg_t,
      bootMatch nodeId m = false → haveTimeout start now CO_TIMEOUT_NMT = 0 →
      nmtStep nodeId start m now = none) ∧
    (∀ nodeId start : Nat, ∀ (buf good : co_msg_t) (now : Nat) (pre tr : List rx_ev),
      (∀ ev ∈ pre, nmtSkipEv nodeId start ev) → bootMatch nodeId good = true →
      coNMTWaitBoot_loop nodeId start buf (pre ++ rx_ev.frame good now :: tr) =
        nmt_out.ret 0) ∧
    (∀ nodeId start : Nat, ∀ (buf m : co_msg_t) (now : Nat) (pre : List rx_ev),
      (∀ ev ∈ pre, nmtSkipEv nodeId start ev) → bootMatch nodeId m = false →
      haveTimeout start now CO_TIMEOUT_NMT ≠ 0 →
      coNMTWaitBoot_loop nodeId start buf (pre ++ [rx_ev.frame m now]) =
        nmt_out.ret (-1)) := by
  refine ⟨?_, ?_, ?_, ?_⟩
  · intro n m h1 h2
    simp only [bootMatch, getCOBIDType, getNodeId, Bool.and_eq_true, beq_iff_eq,
      COB_ID_HRTB]
    rw [and_1920_eq m.cobId h2, and_127_eq]
    constructor
    · rintro ⟨⟨⟨hcls, hnode⟩, hlen⟩, hdata⟩
      exact ⟨by omega, hlen, hdata⟩
    · rintro ⟨hc, hlen, hdata⟩
      exact ⟨⟨⟨by omega, by omega⟩, hlen⟩, hdata⟩
  · intro n start now m hm ht
    simp [nmtStep, hm, ht]
  · intro n start buf good now pre tr hpre hgood
    rw [nmt_loop_skip n start pre buf good now tr hpre]
    simp [coNMTWaitBoot_loop, nmtStep, hgood]
  · intro n start buf m now pre hpre hm ht
    rw [nmt_loop_skip n start pre buf m now [] hpre]
    simp [coNMTWaitBoot_loop, nmtStep, hm, ht]

/-- C6 witness: a foreign SDO response frame at 10 ms is skipped and the
subsequent boot-up frame of node 5 terminates the wait with success. -/
theorem claim_C6_witness :
    coNMTWaitBoot_loop 5 0 rdRespCs80
      ([rx_ev.frame rdRespOk 10] ++ rx_ev.frame bootMsg5 20 :: []) = nmt_out.ret 0 :=
  claim_C6.2.2.1 5 0 rdRespCs80 bootMsg5 20 [rx_ev.frame rdRespOk 10] []
    (by
      intro ev hev
      rw [List.mem_singleton] at hev
      subst hev
      exact ⟨by decide, by decide⟩)
    (by decide)

/-- C7: a frame classified as emergency class is decoded into the node
address (low 7 identifier bits), the 16-bit little-endian error code
from bytes 0-1, the error register from byte 2 and bytes 3-7 as the
manufacturer field, delivered to the emergency sink, with return value 1
("no process data"); the identifier-0x087 example decodes to node 7,
error code 0x2010, error register 5, manufacturer field [1,2,3,4,5]. -/
theorem claim_C7 :
    (∀ nodeId : Nat, ∀ m : co_msg_t, m.data.getD 0 0 < 256 →
      getCOBIDType m = COB_ID_EMCY →
      coRPDO nodeId (rx_res.frame m) =
        { ret := 1,
          emcyEvt := some (m.cobId % 128,
            m.data.getD 0 0 + m.data.getD 1 0 * 256,
            m.data.getD 2 0, m.data.drop 3),
          dataOut := none }) ∧
    coRPDO 3 (rx_res.frame emcyMsg7) =
      { ret := 1, emcyEvt := some (7, 0x2010, 5, [1, 2, 3, 4, 5]), dataOut := none } := by
  constructor
  · intro n m hb h
    have h256 : (256 : Nat) = 2 ^ 8 := by norm_num
    have he : m.data.getD 0 0 ||| m.data.getD 1 0 <<< 8 =
        m.data.getD 0 0 + m.data.getD 1 0 * 256 := by
      rw [h256] at hb ⊢
      exact lor_shift_add _ _ 8 hb
    have hn : getNodeId m = m.cobId % 128 := and_127_eq m.cobId
    simp only [coRPDO, h, beq_self_eq_true, if_true, hn, he]
  · decide

/-- C7 witness: the decode theorem applied to the emergency frame of the
claim. -/
theorem claim_C7_witness :
    coRPDO 3 (rx_res.frame emcyMsg7) =
      { ret := 1, emcyEvt := some (7, 8208, 5, [1, 2, 3, 4, 5]), dataOut := none } :=
  claim_C7.1 3 emcyMsg7 (by decide) (by decide)

/-- C8: for every node 1-127, the node extractor applied to the frames
built by the process-data transmit encoder and the configuration
write/read request encoders recovers exactly that node, and the
classifier maps those frames to the process-data-receive class (0x200)
and the configuration-request class (0x600) respectively. -/
theorem claim_C8 : ∀ nodeId : Nat, 1 ≤ nodeId → nodeId ≤ 127 →
    ∀ (d : List Nat) (l index subIndex value len : Nat),
    getNodeId (coTPDO_msg nodeId d l) = nodeId ∧
    getCOBIDType (coTPDO_msg nodeId d l) = COB_ID_RPDO1 ∧
    getNodeId (coSDOWrite_req nodeId index subIndex value len) = nodeId ∧
    getCOBIDType (coSDOWrite_req nodeId index subIndex value len) = COB_ID_RSDO ∧
    getNodeId (coSDORead_req nodeId index subIndex) = nodeId ∧
    getCOBIDType (coSDORead_req nodeId index subIndex) = COB_ID_RSDO := by
  intro n h1 h2 d l idx sub v len
  have ha : (512 + n) &&& 127 = n := by rw [and_127_eq]; omega
  have hb : (512 + n) &&& 1920 = 512 := by rw [and_1920_eq _ (by omega)]; omega
  have hc : (1536 + n) &&& 127 = n := by rw [and_127_eq]; omega
  have hd : (1536 + n) &&& 1920 = 1536 := by rw [and_1920_eq _ (by omega)]; omega
  exact ⟨ha, hb, hc, hd, hc, hd⟩

/-- C8 witness: the round-trip theorem applied at node 5. -/
theorem claim_C8_witness :
    getNodeId (coTPDO_msg 5 [1, 2] 2) = 5 ∧
    getCOBIDType (coTPDO_msg 5 [1, 2] 2) = COB_ID_RPDO1 ∧
    getNodeId (coSDOWrite_req 5 0x1018 1 0 4) = 5 ∧
    getCOBIDType (coSDOWrite_req 5 0x1018 1 0 4) = COB_ID_RSDO ∧
    getNodeId (coSDORead_req 5 0x1018 1) = 5 ∧
    getCOBIDType (coSDORead_req 5 0x1018 1) = COB_ID_RSDO :=
  claim_C8 5 (by norm_num) (by norm_num) [1, 2] 2 0x1018 1 0 4

/-- C9: with the counter feature enabled, the first frame emitted after
`coSYNCResetCounter` carries a 1-byte payload with counter value 1, and
each subsequent emission carries a value exactly 1 larger than the
previous one, wrapping modulo 256. -/
theorem claim_C9 :
    (coSYNC_counter coSYNCResetCounter).1.len = 1 ∧
    (coSYNC_counter coSYNCResetCounter).1.data.getD 0 0 = 1 ∧
    ∀ s : Nat, (coSYNC_counter (coSYNC_counter s).2).1.data.getD 0 0 =
      ((coSYNC_counter s).1.data.getD 0 0 + 1) % 256 := by
  refine ⟨rfl, rfl, fun s => ?_⟩
  simp [coSYNC_counter]

/-- C9 witness: the increment property applied at counter state 7. -/
theorem claim_C9_witness :
    (coSYNC_counter (coSYNC_counter 7).2).1.data.getD 0 0 =
      ((coSYNC_counter 7).1.data.getD 0 0 + 1) % 256 :=
  claim_C9.2.2 7

/-- C10: `coSDORead` stores through its output location exactly on the
success return 0 and leaves it untouched on every other outcome
(transmit error, receive error, protocol abort, timeout); `coRPDO`
writes the caller's data/length outputs exactly when it returns 0,
leaving them untouched on results 1 and -1 and on emergency delivery. -/
theorem claim_C10 :
    (∀ nodeId index subIndex len : Nat, ∀ (txOk : Bool) (start : Nat)
       (evs : List rx_ev) (r : Nat) (v : Option Nat),
      coSDORead nodeId index subIndex len txOk start evs = sdo_read_out.done r v →
      ((r ≠ 0 → v = none) ∧ (r = 0 → ∃ x, v = some x))) ∧
    (∀ nodeId : Nat, ∀ rr : rx_res,
      ((coRPDO nodeId rr).ret ≠ 0 → (coRPDO nodeId rr).dataOut = none) ∧
      ((coRPDO nodeId rr).emcyEvt.isSome = true →
        (coRPDO nodeId rr).ret = 1 ∧ (coRPDO nodeId rr).dataOut = none) ∧
      ((coRPDO nodeId rr).ret = 0 → ∃ p, (coRPDO nodeId rr).dataOut = some p)) := by
  constructor
  · intro n i s l txOk st evs r v h
    cases txOk with
    | true =>
      simp only [coSDORead, if_true] at h
      rcases sdoReadLoop_inv n i s l st evs _ r v h with ⟨h0, x, hx⟩ | ⟨h0, hx⟩
      · exact ⟨fun hne => absurd h0 hne, fun _ => ⟨x, hx⟩⟩
      · exact ⟨fun _ => hx, fun h00 => by omega⟩
    | false =>
      simp only [coSDORead, Bool.false_eq_true, if_false, sdo_read_out.done.injEq] at h
      refine ⟨fun hne => h.2.symm, fun h00 => ?_⟩
      omega
  · intro n rr
    cases rr with
    | err => exact ⟨fun _ => rfl, by simp [coRPDO], fun h => by simp [coRPDO] at h⟩
    | noData => exact ⟨fun _ => rfl, by simp [coRPDO], fun h => by simp [coRPDO] at h⟩
    | frame m =>
      by_cases he : (getCOBIDType m == COB_ID_EMCY) = true
      · refine ⟨fun _ => by simp [coRPDO, he], fun _ => by simp [coRPDO, he],
          fun h0 => ?_⟩
        simp [coRPDO, he] at h0
      · by_cases hp : (getCOBIDType m == COB_ID_TPDO1 && getNodeId m == n) = true
        · refine ⟨fun hne => absurd (by simp [coRPDO, he, hp]) hne, fun hs => ?_,
            fun _ => ⟨(m.data.take m.len, m.len), by simp [coRPDO, he, hp]⟩⟩
          simp [coRPDO, he, hp] at hs
        · refine ⟨fun _ => by simp [coRPDO, he, hp], fun hs => ?_, fun h0 => ?_⟩
          · simp [coRPDO, he, hp] at hs
          · simp [coRPDO, he, hp] at h0

/-- C10 witness: the frame-effect theorem applied to a successful read
of value 0xDDCCBBAA. -/
theorem claim_C10_witness :
    ((0 : Nat) ≠ 0 → (some 0xDDCCBBAA : Option Nat) = none) ∧
    ((0 : Nat) = 0 → ∃ x, (some 0xDDCCBBAA : Option Nat) = some x) :=
  claim_C10.1 5 0x1018 1 4 true 0 [rx_ev.frame rdRespOk 0] 0 (some 0xDDCCBBAA)
    (by decide)

end CoSimple
